import Mathlib

/-!
Verification of `sqlite-utils-ask` (`sqlite_utils_ask.py`).

Strings are modelled as `List Char` so that positional reasoning about
substring search is direct.  Each definition below embeds the Python
function of the same name; external collaborators (the LLM conversation
and the SQLite query engine) are modelled as oracles supplied through an
environment record.
-/

/-- Python strings are modelled as lists of characters. -/
abbrev Str := List Char

/-- Conversion from Lean string literals into the model. -/
def str (s : String) : Str := s.toList

/-- The whitespace characters removed by Python's `str.strip()`
(the ASCII ones; the source only ever strips ASCII SQL text). -/
def pyIsSpace (c : Char) : Bool :=
  c = ' ' || c = '\t' || c = '\n' || c = '\r' || c = '\x0b' || c = '\x0c'

/-- Python `str.strip()`: drop leading and trailing whitespace. -/
def pyStrip (s : Str) : Str :=
  ((s.dropWhile pyIsSpace).reverse.dropWhile pyIsSpace).reverse

/-- Index of the first occurrence of `needle` as a contiguous substring of
`hay`, if any.  This is the search order of Python's `re.search`: candidate
start positions are tried left to right. -/
def findIdx (needle : Str) : Str → Option Nat
  | [] => if needle = [] then some 0 else none
  | c :: rest =>
      if needle.isPrefixOf (c :: rest) then some 0
      else (findIdx needle rest).map (· + 1)

/-- The opening fence of the regex pattern `_pattern`: three backticks,
the `sql` tag and a mandatory newline. -/
def fenceOpen : Str := str "```sql\n"

/-- The closing fence of the regex pattern `_pattern`: a mandatory newline
then three backticks. -/
def fenceClose : Str := str "\n```"

/-- Embeds `extract_sql_query`: `re.search` of the non-greedy DOTALL
pattern built from `fenceOpen`/`fenceClose`; on a match the captured group
is `strip`ped, otherwise Python returns `None`.  Leftmost matching together
with the non-greedy interior amounts to: find the first opening fence, then
the first closing fence after it. -/
def extract_sql_query (text : Str) : Option Str :=
  match findIdx fenceOpen text with
  | none => none
  | some i =>
      match findIdx fenceClose (text.drop (i + fenceOpen.length)) with
      | none => none
      | some j => some (pyStrip ((text.drop (i + fenceOpen.length)).take j))

/-- One column of a table, as `get_example_columns` sees it: its name, the
Python type that `columns_dict` maps its declared SQLite type to (only
`str` matters, recorded as `isStr`), and the column's stored values in row
order (`none` models SQL `NULL`). -/
structure Column where
  name : String
  isStr : Bool
  values : List (Option String)

/-- Result of `db[table].columns_dict`: either the column list, or the
`sqlite3.OperationalError` raised for virtual (e.g. vec0) tables. -/
inductive TableInfo where
  | virtualTable : TableInfo
  | concrete : List Column → TableInfo

/-- SQLite `select avg(length("column")) from "table"`: `length` of a
`NULL` is `NULL` and `avg` ignores `NULL`s, so this averages the lengths of
the non-null values and is itself `NULL` (here `none`) when there are
none. -/
def sqlAvgLength (vals : List (Option String)) : Option ℚ :=
  let nonNull := vals.filterMap id
  if nonNull.length = 0 then none
  else some ((nonNull.map (fun s => (s.length : ℚ))).sum / nonNull.length)

/-- Helper for `firstDedup`: drop values already in `seen`. -/
def dedupAux (seen : List String) : List String → List String
  | [] => []
  | x :: xs => if x ∈ seen then dedupAux seen xs else x :: dedupAux (x :: seen) xs

/-- SQLite `select distinct`: keep the first occurrence of each value, in
the order the underlying rows are scanned. -/
def firstDedup (l : List String) : List String := dedupAux [] l

/-- The sampling query of `get_example_columns`:
`select distinct "c" as e from (select "c" from "t" limit 1000)
 where "c" is not null and "c" != '' limit 5`. -/
def sampleExamples (vals : List (Option String)) : List String :=
  (firstDedup (((vals.take 1000).filterMap id).filter (fun v => decide ¬ (v = "")))).take 5

/-- Embeds `get_example_columns`: on introspection failure return `{}`;
otherwise, for each column of Python type `str` whose average value length
(`or 0` turns a `NULL` average into 0) is below 32, record the sampled
example values under the column's name.  Dict insertion order is the
column order, modelled as an association list. -/
def get_example_columns : TableInfo → List (String × List String)
  | .virtualTable => []
  | .concrete cols =>
      cols.filterMap (fun c =>
        if c.isStr then
          if (sqlAvgLength c.values).getD 0 < 32 then
            some (c.name, sampleExamples c.values)
          else none
        else none)

/-- JSON string escaping, as Python's `json.dumps` renders the common
escapes (modelled from the Python standard library). -/
def jsonEscapeChar (c : Char) : Str :=
  if c = '"' then str "\\\""
  else if c = '\\' then str "\\\\"
  else if c = '\n' then str "\\n"
  else if c = '\t' then str "\\t"
  else if c = '\r' then str "\\r"
  else [c]

/-- A JSON string literal. -/
def jsonString (s : String) : Str :=
  '"' :: (str s).flatMap jsonEscapeChar ++ ['"']

/-- `indent=4` indentation at nesting depth `n`. -/
def jsonIndent (n : Nat) : Str := List.replicate (4 * n) ' '

/-- Interpose a separator between rendered items. -/
def jsonJoin (sep : Str) : List Str → Str
  | [] => []
  | [x] => x
  | x :: xs => x ++ sep ++ jsonJoin sep xs

/-- A JSON array of strings at depth `level`, `indent=4` style
(modelled from the Python standard library `json.dumps`). -/
def jsonArray (level : Nat) (xs : List String) : Str :=
  if xs.isEmpty then str "[]"
  else
    str "[\n"
      ++ jsonJoin (str ",\n") (xs.map (fun x => jsonIndent (level + 1) ++ jsonString x))
      ++ str "\n" ++ jsonIndent level ++ str "]"

/-- A JSON object at depth `level`, `indent=4` style, whose values are
rendered by `render` (modelled from the Python standard library
`json.dumps`). -/
def jsonObject (level : Nat) (render : Nat → α → Str) (kvs : List (String × α)) : Str :=
  if kvs.isEmpty then str "\x7b\x7d"
  else
    str "\x7b\n"
      ++ jsonJoin (str ",\n")
          (kvs.map (fun kv =>
            jsonIndent (level + 1) ++ jsonString kv.1 ++ str ": " ++ render (level + 1) kv.2))
      ++ str "\n" ++ jsonIndent level ++ str "\x7d"

/-- `json.dumps(examples_for_tables, indent=4, default=repr)` for the
table-name → column-name → example-values map built by `build_prompt`
(modelled from the Python standard library). -/
def json_dumps (m : List (String × List (String × List String))) : Str :=
  jsonObject 0 (fun level inner => jsonObject level jsonArray inner) m

/-- The fixed `SYSTEM` instruction string of the source. -/
def SYSTEM : Str := str
  "You will be given a SQLite schema followed by a question. Generate a single SQL\nquery to answer that question. Return that query in a ```sql ... ```\nfenced code block.\n\nExample: How many repos are there?\nAnswer:\n```sql\nselect count(*) from repos\n```"

/-- The database as `build_prompt` consumes it: the schema text from
`db.schema` and, for each name in `db.table_names()`, the introspection
data that `get_example_columns` reads. -/
structure Database where
  schema : Str
  tables : List (String × TableInfo)

/-- A result row, as `db.query` yields them: a mapping from column names
to (rendered) values. -/
abbrev Row := List (String × String)

/-- The two external collaborators of `_shared_ask`, as oracles: the
model conversation (the reply to the `n`-th prompt sent, counting from 0)
and the database query engine (results, or the stringified exception). -/
structure Env where
  responses : Nat → Str
  runQuery : Str → Except Str (List Row)

deriving instance DecidableEq for Except

/-- Observable steps of one `_shared_ask` run, in order: the initial
prompt, the single reformat follow-up, an error-feedback follow-up, and
each `list(db.query(sql))` call with its outcome. -/
inductive Event where
  | initialPrompt (text : Str)
  | reformatPrompt (text : Str)
  | errorPrompt (text : Str)
  | queryExecuted (sql : Option Str) (result : Except Str (List Row))
deriving DecidableEq

/-- Terminal result of `_shared_ask`: success output, the
`ClickException` raised when no usable query was ever extracted, or the
`ClickException` raised when the attempt budget is exhausted. -/
inductive Outcome where
  | ok (sql : Option Str) (results : List Row)
  | extractionFailure (message : Str)
  | attemptsExhausted (message : Str)
deriving DecidableEq

/-- Python truthiness of the extractor result, as tested by
`if not sql:` — `None` and the empty string are both falsy. -/
def isBlank : Option Str → Bool
  | none => true
  | some s => s.isEmpty

/-- The fixed reformat follow-up prompt of the source. -/
def reformatMessage : Str :=
  str "Return the SQL query like this:\n```sql\nselect ...\n```"

/-- The message of the `TypeError` the sqlite3 driver raises when
`db.query` is handed `None` instead of a string; it is caught by the
loop's `except Exception` like any database error. -/
def noneQueryError : Str := str "argument 1 must be str, not None"

/-- One `list(db.query(sql))` call: a `None` candidate raises before any
SQL runs; a string candidate goes to the database oracle. -/
def execStep (env : Env) (sql : Option Str) : Except Str (List Row) :=
  match sql with
  | none => Except.error noneQueryError
  | some s => env.runQuery s

/-- The error-feedback follow-up `f"Got this error: {str(ex)} - try again"`. -/
def errorPromptText (ex : Str) : Str :=
  str "Got this error: " ++ ex ++ str " - try again"

/-- The `while attempt < 3` loop of `_shared_ask`.  The loop bound
`3 - attempt` is passed as the structural argument `remaining` so that the
definition computes; `attempt` is the source's counter, returned so the
final failure message can report it.  Returns the events of the loop, the
successful candidate and rows if any execution succeeded, and the final
value of `attempt`. -/
def queryLoopAux (env : Env) :
    Nat → Nat → Nat → Option Str → List Event × Option (Option Str × List Row) × Nat
  | 0, _promptIdx, attempt, _sql => ([], none, attempt)
  | remaining + 1, promptIdx, attempt, sql =>
      match execStep env sql with
      | Except.ok results =>
          ([Event.queryExecuted sql (Except.ok results)], some (sql, results), attempt)
      | Except.error ex =>
          let next := queryLoopAux env remaining (promptIdx + 1) (attempt + 1)
            (extract_sql_query (env.responses promptIdx))
          (Event.queryExecuted sql (Except.error ex)
              :: Event.errorPrompt (errorPromptText ex) :: next.1,
            next.2.1, next.2.2)

/-- The code after the loop: on success emit the query and results; else
raise `ClickException(f"Failed after {attempt} attempts")`.  No results
accompany the failure. -/
def finish : Option (Option Str × List Row) × Nat → Outcome
  | (some (s, results), _) => Outcome.ok s results
  | (none, attempt) =>
      Outcome.attemptsExhausted
        (str "Failed after " ++ str (toString attempt) ++ str " attempts")

/-- Embeds `build_prompt`: schema, blank line, optionally the labelled
JSON example map, then the question; paired with the fixed system
prompt. -/
def build_prompt (db : Database) (question : Str) (examples : Bool) : Str × Str :=
  let prompt := db.schema ++ str "\n\n"
  let prompt :=
    if examples then
      prompt ++ str "Example values:\n\n"
        ++ json_dumps (db.tables.map (fun t => (t.1, get_example_columns t.2)))
        ++ str "\n\n"
    else prompt
  (prompt ++ question, SYSTEM)

/-- Embeds `_shared_ask` (presentation-only `verbose`/`json_` branches
echo text and pick an output rendering; they do not affect the
success/failure semantics and are not modelled).  Replies are consumed
from `env.responses` in the order the prompts are sent. -/
def _shared_ask (env : Env) (db : Database) (question : Str) (examples : Bool) :
    List Event × Outcome :=
  let prompt := (build_prompt db question examples).1
  let resp0 := env.responses 0
  let sql0 := extract_sql_query resp0
  if isBlank sql0 then
    let resp1 := env.responses 1
    let sql1 := extract_sql_query resp1
    if isBlank sql1 then
      ([Event.initialPrompt prompt, Event.reformatPrompt reformatMessage],
        Outcome.extractionFailure (str "Failed to generate a response:\n\n" ++ resp0))
    else
      let r := queryLoopAux env 3 2 0 sql1
      (Event.initialPrompt prompt :: Event.reformatPrompt reformatMessage :: r.1,
        finish r.2)
  else
    let r := queryLoopAux env 3 1 0 sql0
    (Event.initialPrompt prompt :: r.1, finish r.2)

/-- Recognises a query-execution step in a trace. -/
def isExecEvent : Event → Bool
  | .queryExecuted _ _ => true
  | _ => false

/-- Recognises a successful query-execution step in a trace. -/
def isOkExec : Event → Bool
  | .queryExecuted _ (Except.ok _) => true
  | _ => false

/-- Recognises the reformat follow-up in a trace. -/
def isReformat : Event → Bool
  | .reformatPrompt _ => true
  | _ => false

/-- A successful execution, if any, ends the trace: the loop exits on the
first success. -/
def okLast (evs : List Event) : Prop :=
  ∀ pre sql results post,
    evs = pre ++ Event.queryExecuted sql (Except.ok results) :: post → post = []

/-- No reformat follow-up is ever sent once a query has been executed. -/
def noReformatAfterExec (evs : List Event) : Prop :=
  ∀ pre e post, evs = pre ++ e :: post → isExecEvent e = true →
    post.countP isReformat = 0

/-- A tiny database for concrete runs. -/
def dbTiny : Database := ⟨str "CREATE TABLE t (x TEXT);", []⟩

/-- An environment whose model immediately answers with a good query. -/
def envGood : Env :=
  ⟨fun n => if n = 0 then str "```sql\nselect 1\n```" else str "",
   fun s => if s = str "select 1" then Except.ok [[("x", "1")]] else Except.error (str "boom")⟩

/-- An environment whose model answers with well-fenced queries but whose
queries always fail. -/
def envAllFail : Env :=
  ⟨fun _ => str "```sql\nselect 1\n```", fun _ => Except.error (str "boom")⟩

/-- An environment whose model never produces a fenced block. -/
def envNoSql : Env :=
  ⟨fun _ => str "no code here", fun _ => Except.error (str "boom")⟩

/-- An environment whose model answers with a fenced `sql` block with an
empty interior: the extractor returns the empty string, not `None`. -/
def envEmptyBlock : Env :=
  ⟨fun _ => str "```sql\n\n```", fun _ => Except.error (str "boom")⟩

/-! ## Theorems -/

/-- Bridge from the boolean prefix test to an explicit decomposition. -/
theorem isPrefixOf_spec (l₁ l₂ : Str) :
    l₁.isPrefixOf l₂ = true ↔ ∃ t, l₁ ++ t = l₂ := by
  rw [ List.isPrefixOf_iff_prefix]
  exact Iff.rfl

/-- `findIdx` only returns genuine occurrences. -/
theorem findIdx_some (needle : Str) :
    ∀ (hay : Str) (i : Nat), findIdx needle hay = some i →
      ∃ pre post, hay = pre ++ needle ++ post ∧ pre.length = i := by
  intro hay
  induction hay with
  | nil =>
      intro i h
      simp only [findIdx] at h
      by_cases hn : needle = ([] : Str)
      · subst hn
        simp at h
        exact ⟨[], [], by simp, by simp [h]⟩
      · simp [hn] at h
  | cons c rest ih =>
      intro i h
      simp only [findIdx] at h
      by_cases hp : needle.isPrefixOf (c :: rest) = true
      · simp [hp] at h
        obtain ⟨t, ht⟩ := (isPrefixOf_spec _ _).mp hp
        exact ⟨[], t, by simp [ht.symm], by simp [h]⟩
      · simp [hp] at h
        obtain ⟨j, hj, hji⟩ := h
        obtain ⟨pre, post, hdec, hlen⟩ := ih j hj
        exact ⟨c :: pre, post, by simp [hdec], by simp [hlen, hji]⟩

/-- `findIdx` returns the leftmost occurrence. -/
theorem findIdx_min (needle : Str) :
    ∀ (hay : Str) (i : Nat), findIdx needle hay = some i →
      ∀ pre post, hay = pre ++ needle ++ post → i ≤ pre.length := by
  intro hay
  induction hay with
  | nil =>
      intro i h pre post hdec
      simp only [findIdx] at h
      by_cases hn : needle = ([] : Str)
      · simp [hn] at h
        omega
      · simp [hn] at h
  | cons c rest ih =>
      intro i h pre post hdec
      simp only [findIdx] at h
      by_cases hp : needle.isPrefixOf (c :: rest) = true
      · simp [hp] at h
        omega
      · simp [hp] at h
        obtain ⟨j, hj, hji⟩ := h
        cases pre with
        | nil =>
            exfalso
            apply hp
            rw [isPrefixOf_spec]
            exact ⟨post, by simpa using hdec.symm⟩
        | cons c' pre' =>
            simp at hdec
            obtain ⟨hc, hrest⟩ := hdec
            have := ih j hj pre' post (by rw [hrest, List.append_assoc])
            simp
            omega

/-- If an occurrence exists, `findIdx` finds one. -/
theorem findIdx_exists (needle : Str) :
    ∀ (hay : Str) (pre post : Str), hay = pre ++ needle ++ post →
      ∃ i, findIdx needle hay = some i := by
  intro hay
  induction hay with
  | nil =>
      intro pre post hdec
      have hn : needle = ([] : Str) := by
        cases needle with
        | nil => rfl
        | cons a t => simp at hdec
      exact ⟨0, by simp [findIdx, hn]⟩
  | cons c rest ih =>
      intro pre post hdec
      by_cases hp : needle.isPrefixOf (c :: rest) = true
      · exact ⟨0, by simp [findIdx, hp]⟩
      · cases pre with
        | nil =>
            exfalso
            apply hp
            rw [isPrefixOf_spec]
            exact ⟨post, by simpa using hdec.symm⟩
        | cons c' pre' =>
            simp at hdec
            obtain ⟨hc, hrest⟩ := hdec
            obtain ⟨j, hj⟩ := ih pre' post (by rw [hrest, List.append_assoc])
            exact ⟨j + 1, by simp [findIdx, hp, hj]⟩

/-- `findIdx` fails only when there is no occurrence at all. -/
theorem findIdx_none (needle hay : Str) (h : findIdx needle hay = none) :
    ¬ ∃ pre post, hay = pre ++ needle ++ post := by
  rintro ⟨pre, post, hdec⟩
  obtain ⟨i, hi⟩ := findIdx_exists needle hay pre post hdec
  rw [h] at hi
  exact Option.noConfusion hi

example : extract_sql_query (str "```sql\nselect 1\n```") = some (str "select 1") := by decide

example : extract_sql_query (str "no fences here") = none := by decide

example : extract_sql_query (str "a ```sql\n x \n``` b ```sql\ny\n```") = some (str "x") := by decide

/-- The rational average test, restated over the natural numbers so that
concrete instances can be settled by `decide`. -/
theorem sqlAvgLength_getD_lt (vals : List (Option String)) :
    ((sqlAvgLength vals).getD 0 < 32) ↔
      (((vals.filterMap id).map String.length).sum < 32 * (vals.filterMap id).length
        ∨ (vals.filterMap id).length = 0) := by
  unfold sqlAvgLength
  by_cases h : (vals.filterMap id).length = 0
  · simp [h]
  · have hpos : (0 : ℚ) < ((vals.filterMap id).length : ℚ) := by
      exact_mod_cast Nat.pos_of_ne_zero h
    have hsum : ((vals.filterMap id).map (fun s => ((s.length : ℚ)))).sum
        = (((vals.filterMap id).map String.length).sum : ℚ) := by
      induction vals.filterMap id with
      | nil => simp
      | cons a t ih => simp [ih]
    simp only [h, if_false, Option.getD_some]
    rw [hsum, div_lt_iff₀ hpos]
    constructor
    · intro hlt
      left
      exact_mod_cast hlt
    · rintro (hlt | hzero)
      · exact_mod_cast hlt
      · exact hzero.elim

example :
    get_example_columns (.concrete
      [⟨"name", true, [some "a", some "a", none, some "", some "b"]⟩,
       ⟨"age", false, [some "x"]⟩]) = [("name", ["a", "b"])] := by
  have h1 : ((sqlAvgLength [some "a", some "a", none, some "", some "b"]).getD 0 < 32) := by
    rw [ sqlAvgLength_getD_lt]
    decide
  simp [get_example_columns, h1]
  decide

/-- The loop executes at most `remaining` queries. -/
theorem loop_execCount_le (env : Env) :
    ∀ (rem i a : Nat) (sql : Option Str),
      ((queryLoopAux env rem i a sql).1.countP isExecEvent) ≤ rem := by
  intro rem
  induction rem with
  | zero => intro i a sql; simp [queryLoopAux]
  | succ r ih =>
      intro i a sql
      simp only [queryLoopAux]
      cases hx : execStep env sql with
      | ok results => simp [List.countP_cons, isExecEvent]
      | error ex =>
          simp only [List.countP_cons, isExecEvent]
          have := ih (i + 1) (a + 1) (extract_sql_query (env.responses i))
          simp
          omega

/-- The loop never sends the reformat follow-up. -/
theorem loop_no_reformat (env : Env) :
    ∀ (rem i a : Nat) (sql : Option Str),
      ((queryLoopAux env rem i a sql).1.countP isReformat) = 0 := by
  intro rem
  induction rem with
  | zero => intro i a sql; simp [queryLoopAux]
  | succ r ih =>
      intro i a sql
      simp only [queryLoopAux]
      cases hx : execStep env sql with
      | ok results => simp [List.countP_cons, isReformat]
      | error ex =>
          have := ih (i + 1) (a + 1) (extract_sql_query (env.responses i))
          simp [List.countP_cons, isReformat]
          simpa using this

/-- `okLast` extends over a leading non-successful event. -/
theorem okLast_cons (e : Event) (evs : List Event)
    (he : isOkExec e = false) (h : okLast evs) : okLast (e :: evs) := by
  intro pre sql results post hdec
  cases pre with
  | nil =>
      simp at hdec
      rw [hdec.1] at he
      simp [isOkExec] at he
  | cons a pre' =>
      simp at hdec
      exact h pre' sql results post hdec.2

/-- The empty trace trivially satisfies `okLast`. -/
theorem okLast_nil : okLast [] := by
  intro pre sql results post hdec
  exact absurd hdec (by simp)

/-- Inside the loop, a successful execution ends the trace. -/
theorem loop_okLast (env : Env) :
    ∀ (rem i a : Nat) (sql : Option Str), okLast (queryLoopAux env rem i a sql).1 := by
  intro rem
  induction rem with
  | zero => intro i a sql; simpa [queryLoopAux] using okLast_nil
  | succ r ih =>
      intro i a sql
      simp only [queryLoopAux]
      cases hx : execStep env sql with
      | ok results =>
          intro pre sql' results' post hdec
          cases pre with
          | nil => simp at hdec; exact hdec.2
          | cons a' pre' => simp at hdec
      | error ex =>
          exact okLast_cons _ _ (by simp [isOkExec]) (okLast_cons _ _ (by simp [isOkExec])
            (ih (i + 1) (a + 1) (extract_sql_query (env.responses i))))

/-- If no execution in the loop trace succeeded, the loop reports no
result and its final `attempt` counter is the starting value plus the
number of executions performed. -/
theorem loop_all_error (env : Env) :
    ∀ (rem i a : Nat) (sql : Option Str),
      (∀ e ∈ (queryLoopAux env rem i a sql).1, isOkExec e = false) →
      (queryLoopAux env rem i a sql).2.1 = none
        ∧ (queryLoopAux env rem i a sql).2.2
            = a + (queryLoopAux env rem i a sql).1.countP isExecEvent := by
  intro rem
  induction rem with
  | zero => intro i a sql _; simp [queryLoopAux]
  | succ r ih =>
      intro i a sql hall
      simp only [queryLoopAux] at hall ⊢
      cases hx : execStep env sql with
      | ok results =>
          exfalso
          rw [hx] at hall
          have := hall (Event.queryExecuted sql (Except.ok results)) (by simp)
          simp [isOkExec] at this
      | error ex =>
          rw [hx] at hall
          have hall' : ∀ e ∈ (queryLoopAux env r (i + 1) (a + 1)
              (extract_sql_query (env.responses i))).1, isOkExec e = false := by
            intro e he
            exact hall e (by simp [he])
          have := ih (i + 1) (a + 1) (extract_sql_query (env.responses i)) hall'
          simp [List.countP_cons, isExecEvent, this.1, this.2]
          omega

/-- `noReformatAfterExec` holds of any trace with no reformat event. -/
theorem nrae_of_no_reformat (evs : List Event) (h : evs.countP isReformat = 0) :
    noReformatAfterExec evs := by
  intro pre e post hdec _
  have hsub : post.Sublist evs := by
    rw [hdec]
    exact ((List.sublist_cons_self e post).trans (List.sublist_append_right pre _))
  have := hsub.countP_le isReformat
  omega

/-- `noReformatAfterExec` extends over a leading non-execution event. -/
theorem nrae_cons (e : Event) (evs : List Event)
    (he : isExecEvent e = false) (h : noReformatAfterExec evs) :
    noReformatAfterExec (e :: evs) := by
  intro pre e' post hdec hexec
  cases pre with
  | nil =>
      simp at hdec
      rw [hdec.1] at he
      rw [he] at hexec
      exact absurd hexec (by simp)
  | cons a pre' =>
      simp at hdec
      exact h pre' e' post hdec.2 hexec

/-- The empty trace trivially satisfies `noReformatAfterExec`. -/
theorem nrae_nil : noReformatAfterExec [] := by
  intro pre e post hdec
  exact absurd hdec (by simp)

/-- Claim C9: a table whose column introspection fails (the
`sqlite3.OperationalError` branch, e.g. a virtual/vector table) yields the
empty example mapping; the failure is absorbed, never surfaced. -/
theorem claim_C9 : get_example_columns TableInfo.virtualTable = [] := rfl

/-- Claim C7: the built user prompt is exactly the schema text, two
newlines, optionally the labelled JSON-serialized example map, and the
literal question text at the end. -/
theorem claim_C7 (db : Database) (question : Str) (examples : Bool) :
    (build_prompt db question examples).1
      = db.schema ++ str "\n\n"
        ++ (if examples then
              str "Example values:\n\n"
                ++ json_dumps (db.tables.map (fun t => (t.1, get_example_columns t.2)))
                ++ str "\n\n"
            else [])
        ++ question := by
  cases examples <;> simp [build_prompt]

/-- Claim C5: when neither the first response nor the reply to the single
reformat follow-up yields a fenced sql block, `_shared_ask` terminates
with the extraction-failure error carrying the original response text, and
no query is ever executed. -/
theorem claim_C5 (env : Env) (db : Database) (question : Str) (examples : Bool)
    (h0 : extract_sql_query (env.responses 0) = none)
    (h1 : extract_sql_query (env.responses 1) = none) :
    (_shared_ask env db question examples).2
        = Outcome.extractionFailure
            (str "Failed to generate a response:\n\n" ++ env.responses 0)
      ∧ (_shared_ask env db question examples).1.countP isExecEvent = 0 := by
  simp [_shared_ask, h0, h1, isBlank, List.countP_cons, isExecEvent]

/-- Witness for C5 at a concrete run. -/
theorem claim_C5_witness :
    (_shared_ask envNoSql dbTiny (str "q") false).2
        = Outcome.extractionFailure
            (str "Failed to generate a response:\n\n" ++ envNoSql.responses 0)
      ∧ (_shared_ask envNoSql dbTiny (str "q") false).1.countP isExecEvent = 0 :=
  claim_C5 envNoSql dbTiny (str "q") false (by decide) (by decide)

/-- `finish` never reports an extraction failure: that error is raised
before the execution loop only. -/
theorem finish_ne_extractionFailure (p : Option (Option Str × List Row) × Nat) (msg : Str) :
    finish p ≠ Outcome.extractionFailure msg := by
  obtain ⟨o, a⟩ := p
  cases o with
  | none => simp [finish]
  | some v =>
      obtain ⟨s, res⟩ := v
      simp [finish]

/-- Claim C1: a run of `_shared_ask` performs at most 3 query executions,
and a successful execution is always the last event — the loop exits on
the first success. -/
theorem claim_C1 (env : Env) (db : Database) (question : Str) (examples : Bool) :
    (_shared_ask env db question examples).1.countP isExecEvent ≤ 3
      ∧ okLast (_shared_ask env db question examples).1 := by
  unfold _shared_ask
  by_cases h0 : isBlank (extract_sql_query (env.responses 0)) = true
  · by_cases h1 : isBlank (extract_sql_query (env.responses 1)) = true
    · simp only [h0, h1, if_true]
      refine ⟨by simp [List.countP_cons, isExecEvent], ?_⟩
      exact okLast_cons _ _ (by simp [isOkExec])
        (okLast_cons _ _ (by simp [isOkExec]) okLast_nil)
    · simp only [h0, h1, if_true, if_false, Bool.false_eq_true]
      refine ⟨?_, ?_⟩
      · have := loop_execCount_le env 3 2 0 (extract_sql_query (env.responses 1))
        simp [List.countP_cons, isExecEvent]
        omega
      · exact okLast_cons _ _ (by simp [isOkExec]) (okLast_cons _ _ (by simp [isOkExec])
          (loop_okLast env 3 2 0 _))
  · simp only [h0, if_false, Bool.false_eq_true]
    refine ⟨?_, ?_⟩
    · have := loop_execCount_le env 3 1 0 (extract_sql_query (env.responses 0))
      simp [List.countP_cons, isExecEvent]
      omega
    · exact okLast_cons _ _ (by simp [isOkExec]) (loop_okLast env 3 1 0 _)

/-- Witness for C1 at a concrete run that succeeds on the first attempt. -/
theorem claim_C1_witness :
    (_shared_ask envGood dbTiny (str "q") false).1.countP isExecEvent ≤ 3
      ∧ ([] : List Event) = [] := by
  refine ⟨(claim_C1 envGood dbTiny (str "q") false).1, ?_⟩
  exact (claim_C1 envGood dbTiny (str "q") false).2
    [Event.initialPrompt (build_prompt dbTiny (str "q") false).1]
    (some (str "select 1")) [[("x", "1")]] [] (by decide)

/-- Claim C6: if three queries were executed and none succeeded, the run
ends with the terminal `Failed after 3 attempts` error (an
`attemptsExhausted` outcome carries no result rows). -/
theorem claim_C6 (env : Env) (db : Database) (question : Str) (examples : Bool)
    (h3 : (_shared_ask env db question examples).1.countP isExecEvent = 3)
    (hfail : ∀ e ∈ (_shared_ask env db question examples).1, isOkExec e = false) :
    (_shared_ask env db question examples).2
      = Outcome.attemptsExhausted (str "Failed after 3 attempts") := by
  unfold _shared_ask at h3 hfail ⊢
  by_cases h0 : isBlank (extract_sql_query (env.responses 0)) = true
  · by_cases h1 : isBlank (extract_sql_query (env.responses 1)) = true
    · simp [h0, h1, List.countP_cons, isExecEvent] at h3
    · simp only [h0, h1, if_true, if_false, Bool.false_eq_true,
        List.countP_cons, List.mem_cons, List.forall_mem_cons] at h3 hfail ⊢
      have hall := loop_all_error env 3 2 0 (extract_sql_query (env.responses 1))
        (fun e he => hfail e (Or.inr (Or.inr he)))
      have hcount : (queryLoopAux env 3 2 0 (extract_sql_query (env.responses 1))).1.countP
          isExecEvent = 3 := by
        simp [isExecEvent] at h3
        omega
      have hpair : (queryLoopAux env 3 2 0 (extract_sql_query (env.responses 1))).2
          = (none, 3) := by
        rw [Prod.ext_iff]
        refine ⟨hall.1, ?_⟩
        rw [hall.2, hcount]
      rw [hpair]
      decide
  · simp only [h0, if_false, Bool.false_eq_true,
      List.countP_cons, List.mem_cons, List.forall_mem_cons] at h3 hfail ⊢
    have hall := loop_all_error env 3 1 0 (extract_sql_query (env.responses 0))
      (fun e he => hfail e (Or.inr he))
    have hcount : (queryLoopAux env 3 1 0 (extract_sql_query (env.responses 0))).1.countP
        isExecEvent = 3 := by
      simp [isExecEvent] at h3
      omega
    have hpair : (queryLoopAux env 3 1 0 (extract_sql_query (env.responses 0))).2
        = (none, 3) := by
      rw [Prod.ext_iff]
      refine ⟨hall.1, ?_⟩
      rw [hall.2, hcount]
    rw [hpair]
    decide

/-- Witness for C6 at a concrete run where all three executions fail. -/
theorem claim_C6_witness :
    (_shared_ask envAllFail dbTiny (str "q") false).2
      = Outcome.attemptsExhausted (str "Failed after 3 attempts") :=
  claim_C6 envAllFail dbTiny (str "q") false (by decide) (by decide)

/-- Claim C4 as frozen is refuted at the response `"```sql\n\n```"`
(a fenced block with empty interior): the extractor returns the empty
string — not the absence signal `None` — yet the reformat follow-up is
still sent, because the source tests Python truthiness (`if not sql:`),
not `is None`. -/
theorem claim_C4_counterexample :
    extract_sql_query (str "```sql\n\n```") = some []
      ∧ extract_sql_query (str "```sql\n\n```") ≠ none
      ∧ Event.reformatPrompt reformatMessage
          ∈ (_shared_ask envEmptyBlock dbTiny (str "q") false).1 := by decide

/-- Claim C4 (amended): the reformat follow-up is sent at most once, only
when the extraction from the model's first response was falsy — `None` or
an empty (whitespace-only) interior — and never after a query has been
executed. -/
theorem claim_C4 (env : Env) (db : Database) (question : Str) (examples : Bool) :
    (_shared_ask env db question examples).1.countP isReformat ≤ 1
      ∧ (isBlank (extract_sql_query (env.responses 0)) = false →
          (_shared_ask env db question examples).1.countP isReformat = 0)
      ∧ noReformatAfterExec (_shared_ask env db question examples).1 := by
  unfold _shared_ask
  by_cases h0 : isBlank (extract_sql_query (env.responses 0)) = true
  · by_cases h1 : isBlank (extract_sql_query (env.responses 1)) = true
    · simp only [h0, h1, if_true]
      refine ⟨by simp [List.countP_cons, isReformat], by simp [h0], ?_⟩
      exact nrae_cons _ _ (by simp [isExecEvent])
        (nrae_cons _ _ (by simp [isExecEvent]) nrae_nil)
    · simp only [h0, h1, if_true, if_false, Bool.false_eq_true]
      refine ⟨?_, by simp [h0], ?_⟩
      · simp [List.countP_cons, isReformat, loop_no_reformat]
      · exact nrae_cons _ _ (by simp [isExecEvent]) (nrae_cons _ _ (by simp [isExecEvent])
          (nrae_of_no_reformat _ (loop_no_reformat env 3 2 0 _)))
  · simp only [h0, if_false, Bool.false_eq_true]
    refine ⟨?_, fun _ => ?_, ?_⟩
    · simp [List.countP_cons, isReformat, loop_no_reformat]
    · simp [List.countP_cons, isReformat, loop_no_reformat]
    · exact nrae_cons _ _ (by simp [isExecEvent])
        (nrae_of_no_reformat _ (loop_no_reformat env 3 1 0 _))

/-- Witness for C4 (amended) at a concrete run. -/
theorem claim_C4_witness :
    (_shared_ask envGood dbTiny (str "q") false).1.countP isReformat = 0
      ∧ ([] : List Event).countP isReformat = 0 := by
  refine ⟨(claim_C4 envGood dbTiny (str "q") false).2.1 (by decide), ?_⟩
  exact (claim_C4 envGood dbTiny (str "q") false).2.2
    [Event.initialPrompt (build_prompt dbTiny (str "q") false).1]
    (Event.queryExecuted (some (str "select 1")) (Except.ok [[("x", "1")]]))
    [] (by decide) (by decide)

/-- Claim C3: after a query-execution error with attempt budget left, if
the corrective reply has no fenced sql block the loop surfaces nothing: it
simply proceeds to the next execution attempt with the absent (`None`)
candidate, which fails when executed; and an extraction-failure outcome
can only ever arise before any query was executed. -/
theorem claim_C3 :
    (∀ (env : Env) (rem i a : Nat) (sql : Option Str) (ex : Str),
        2 ≤ rem →
        execStep env sql = Except.error ex →
        extract_sql_query (env.responses i) = none →
        ∃ rest res att,
          queryLoopAux env rem i a sql
            = (Event.queryExecuted sql (Except.error ex)
                :: Event.errorPrompt (errorPromptText ex)
                :: Event.queryExecuted none (Except.error noneQueryError) :: rest,
               res, att))
      ∧ (∀ (env : Env) (db : Database) (question : Str) (examples : Bool) (msg : Str),
          (_shared_ask env db question examples).2 = Outcome.extractionFailure msg →
          (_shared_ask env db question examples).1.countP isExecEvent = 0) := by
  constructor
  · intro env rem i a sql ex hrem hexec hext
    obtain ⟨r, rfl⟩ : ∃ r, rem = r + 2 := ⟨rem - 2, by omega⟩
    show ∃ rest res att, queryLoopAux env (r + 1 + 1) i a sql
      = (Event.queryExecuted sql (Except.error ex)
          :: Event.errorPrompt (errorPromptText ex)
          :: Event.queryExecuted none (Except.error noneQueryError) :: rest,
         res, att)
    simp only [queryLoopAux, hext]
    rw [hexec]
    exact ⟨_, _, _, rfl⟩
  · intro env db question examples msg h
    unfold _shared_ask at h ⊢
    by_cases h0 : isBlank (extract_sql_query (env.responses 0)) = true
    · by_cases h1 : isBlank (extract_sql_query (env.responses 1)) = true
      · simp [h0, h1, List.countP_cons, isExecEvent]
      · simp only [h0, h1, if_true, if_false, Bool.false_eq_true] at h
        exact absurd h (finish_ne_extractionFailure _ _)
    · simp only [h0, if_false, Bool.false_eq_true] at h
      exact absurd h (finish_ne_extractionFailure _ _)

/-- Witness for C3 at a concrete loop state and a concrete run. -/
theorem claim_C3_witness :
    (∃ rest res att,
        queryLoopAux envNoSql 3 1 0 (some (str "x"))
          = (Event.queryExecuted (some (str "x")) (Except.error (str "boom"))
              :: Event.errorPrompt (errorPromptText (str "boom"))
              :: Event.queryExecuted none (Except.error noneQueryError) :: rest,
             res, att))
      ∧ (_shared_ask envNoSql dbTiny (str "q") false).1.countP isExecEvent = 0 := by
  constructor
  · exact claim_C3.1 envNoSql 3 1 0 (some (str "x")) (str "boom")
      (by decide) (by decide) (by decide)
  · exact claim_C3.2 envNoSql dbTiny (str "q") false
      (str "Failed to generate a response:\n\n" ++ envNoSql.responses 0) (by decide)

/-- What a `some` answer of the extractor means: the text decomposes
around a fenced sql block, the answer is the stripped interior, and that
block is the first one — its opening fence is leftmost, and among blocks
opening there its interior is shortest (the non-greedy close). -/
theorem extract_some_spec (text q : Str) (h : extract_sql_query text = some q) :
    ∃ pre mid post, text = pre ++ fenceOpen ++ mid ++ fenceClose ++ post
      ∧ q = pyStrip mid
      ∧ ∀ pre' mid' post', text = pre' ++ fenceOpen ++ mid' ++ fenceClose ++ post' →
          pre.length ≤ pre'.length
            ∧ (pre'.length = pre.length → mid.length ≤ mid'.length) := by
  cases hO : findIdx fenceOpen text with
  | none => simp [extract_sql_query, hO] at h
  | some i =>
      cases hC : findIdx fenceClose (text.drop (i + fenceOpen.length)) with
      | none => simp [extract_sql_query, hO, hC] at h
      | some j =>
          simp only [extract_sql_query, hO, hC, Option.some.injEq] at h
          obtain ⟨preO, postO, htext, hlenO⟩ := findIdx_some fenceOpen text i hO
          obtain ⟨preC, postC, hafter, hlenC⟩ := findIdx_some fenceClose _ j hC
          have hl : i + fenceOpen.length = (preO ++ fenceOpen).length := by
            simp [List.length_append, hlenO]
          have hdropped : text.drop (i + fenceOpen.length) = postO := by
            rw [htext, hl, List.drop_left]
          rw [hdropped] at hafter
          refine ⟨preO, preC, postC, ?_, ?_, ?_⟩
          · rw [htext, hafter]
            simp [List.append_assoc]
          · rw [← h, hdropped, hafter, List.append_assoc, ← hlenC, List.take_left]
          · intro pre' mid' post' hdec'
            have hmin : i ≤ pre'.length :=
              findIdx_min fenceOpen text i hO pre' (mid' ++ fenceClose ++ post')
                (by rw [hdec']; simp [List.append_assoc])
            constructor
            · omega
            · intro heq
              have hl' : i + fenceOpen.length = (pre' ++ fenceOpen).length := by
                simp [List.length_append]
                omega
              have hre : text = (pre' ++ fenceOpen) ++ (mid' ++ fenceClose ++ post') := by
                rw [hdec']
                simp [List.append_assoc]
              have hdrop' : text.drop (i + fenceOpen.length)
                  = mid' ++ fenceClose ++ post' := by
                rw [hre, hl', List.drop_left]
              have := findIdx_min fenceClose _ j hC mid' post' hdrop'
              omega

/-- A `none` answer of the extractor means no fenced sql block exists. -/
theorem extract_none_spec (text : Str) (h : extract_sql_query text = none) :
    ¬ ∃ pre mid post, text = pre ++ fenceOpen ++ mid ++ fenceClose ++ post := by
  rintro ⟨pre, mid, post, hdec⟩
  cases hO : findIdx fenceOpen text with
  | none =>
      exact findIdx_none fenceOpen text hO
        ⟨pre, mid ++ fenceClose ++ post, by rw [hdec]; simp [List.append_assoc]⟩
  | some i =>
      cases hC : findIdx fenceClose (text.drop (i + fenceOpen.length)) with
      | some j => simp [extract_sql_query, hO, hC] at h
      | none =>
          have hle : i ≤ pre.length :=
            findIdx_min fenceOpen text i hO pre (mid ++ fenceClose ++ post)
              (by rw [hdec]; simp [List.append_assoc])
          have htext2 : text = (pre ++ fenceOpen ++ mid) ++ (fenceClose ++ post) := by
            rw [hdec]
            simp [List.append_assoc]
          have hlen : i + fenceOpen.length ≤ (pre ++ fenceOpen ++ mid).length := by
            simp [List.length_append]
            omega
          have hdrop : text.drop (i + fenceOpen.length)
              = (pre ++ fenceOpen ++ mid).drop (i + fenceOpen.length)
                ++ (fenceClose ++ post) := by
            rw [htext2, List.drop_append_of_le_length hlen]
          exact findIdx_none fenceClose _ hC
            ⟨(pre ++ fenceOpen ++ mid).drop (i + fenceOpen.length), post, by
              rw [hdrop]
              simp [List.append_assoc]⟩

/-- Claim C2: the extractor returns `None` exactly when the text contains
no fenced block tagged sql, and any returned value is the
whitespace-trimmed interior of the first such block — later blocks are
ignored. -/
theorem claim_C2 (text : Str) :
    (extract_sql_query text = none ↔
        ¬ ∃ pre mid post, text = pre ++ fenceOpen ++ mid ++ fenceClose ++ post)
      ∧ ∀ q, extract_sql_query text = some q →
          ∃ pre mid post, text = pre ++ fenceOpen ++ mid ++ fenceClose ++ post
            ∧ q = pyStrip mid
            ∧ ∀ pre' mid' post', text = pre' ++ fenceOpen ++ mid' ++ fenceClose ++ post' →
                pre.length ≤ pre'.length
                  ∧ (pre'.length = pre.length → mid.length ≤ mid'.length) := by
  constructor
  · constructor
    · exact extract_none_spec text
    · intro hno
      cases hq : extract_sql_query text with
      | none => rfl
      | some q =>
          obtain ⟨pre, mid, post, hdec, -, -⟩ := extract_some_spec text q hq
          exact absurd ⟨pre, mid, post, hdec⟩ hno
  · exact fun q => extract_some_spec text q

/-- Witness for C2 at a concrete response text. -/
theorem claim_C2_witness :
    ∃ pre mid post,
      str "a```sql\nselect 1\n```b"
          = pre ++ fenceOpen ++ mid ++ fenceClose ++ post
        ∧ str "select 1" = pyStrip mid
        ∧ ∀ pre' mid' post',
            str "a```sql\nselect 1\n```b"
                = pre' ++ fenceOpen ++ mid' ++ fenceClose ++ post' →
              pre.length ≤ pre'.length
                ∧ (pre'.length = pre.length → mid.length ≤ mid'.length) :=
  (claim_C2 (str "a```sql\nselect 1\n```b")).2 (str "select 1") (by decide)

/-- Claim C10: the extractor only matches when the opening tag is
immediately followed by a newline and the closing fence immediately
preceded by one; on the single-line text `"```sql select 1```"` it
returns `None`. -/
theorem claim_C10 :
    (∀ (text q : Str), extract_sql_query text = some q →
        ∃ pre mid post, text = pre ++ fenceOpen ++ mid ++ fenceClose ++ post)
      ∧ extract_sql_query (str "```sql select 1```") = none := by
  constructor
  · intro text q h
    obtain ⟨pre, mid, post, hdec, -, -⟩ := extract_some_spec text q h
    exact ⟨pre, mid, post, hdec⟩
  · decide

/-- Witness for C10 at a concrete matching text. -/
theorem claim_C10_witness :
    ∃ pre mid post,
      str "```sql\nselect 2\n```" = pre ++ fenceOpen ++ mid ++ fenceClose ++ post :=
  claim_C10.1 (str "```sql\nselect 2\n```") (str "select 2") (by decide)

/-- Values surviving `dedupAux` come from the input list. -/
theorem dedupAux_subset :
    ∀ (l seen : List String) (x : String), x ∈ dedupAux seen l → x ∈ l := by
  intro l
  induction l with
  | nil => intro seen x h; simp [dedupAux] at h
  | cons a t ih =>
      intro seen x h
      simp only [dedupAux] at h
      by_cases ha : a ∈ seen
      · simp only [ha, if_true] at h
        exact List.mem_cons_of_mem a (ih seen x h)
      · simp only [ha, if_false] at h
        rcases List.mem_cons.mp h with h | h
        · simp [h]
        · exact List.mem_cons_of_mem a (ih _ x h)

/-- `dedupAux` yields distinct values, none of them already seen. -/
theorem dedupAux_nodup :
    ∀ (l seen : List String),
      (dedupAux seen l).Nodup ∧ ∀ x ∈ dedupAux seen l, x ∉ seen := by
  intro l
  induction l with
  | nil => intro seen; simp [dedupAux]
  | cons a t ih =>
      intro seen
      simp only [dedupAux]
      by_cases ha : a ∈ seen
      · simp only [ha, if_true]
        exact ih seen
      · simp only [ha, if_false]
        obtain ⟨hnd, hmem⟩ := ih (a :: seen)
        constructor
        · rw [List.nodup_cons]
          exact ⟨fun hmem_a => (hmem a hmem_a) (List.mem_cons_self a seen), hnd⟩
        · intro x hx
          rcases List.mem_cons.mp hx with h | h
          · rw [h]; exact ha
          · exact fun hxs => (hmem x h) (List.mem_cons_of_mem a hxs)

/-- The sampling query returns at most 5 values. -/
theorem sampleExamples_length_le (vals : List (Option String)) :
    (sampleExamples vals).length ≤ 5 :=
  List.length_take_le 5 _

/-- The sampling query returns distinct values. -/
theorem sampleExamples_nodup (vals : List (Option String)) :
    (sampleExamples vals).Nodup :=
  ((dedupAux_nodup _ []).1).sublist (List.take_sublist 5 _)

/-- Every sampled value is non-empty and appears among the first 1000
stored values of the column (so in particular it is not `NULL`). -/
theorem sampleExamples_mem (vals : List (Option String)) (v : String)
    (hv : v ∈ sampleExamples vals) :
    ¬ v = "" ∧ some v ∈ vals.take 1000 := by
  simp only [sampleExamples, firstDedup] at hv
  have hv1 : v ∈ dedupAux []
      (((vals.take 1000).filterMap id).filter (fun v => decide ¬ (v = ""))) :=
    List.mem_of_mem_take hv
  have hv2 := dedupAux_subset _ [] v hv1
  constructor
  · have := List.of_mem_filter hv2
    simpa using this
  · have hv3 : v ∈ (vals.take 1000).filterMap id := List.mem_of_mem_filter hv2
    rw [ List.mem_filterMap] at hv3
    obtain ⟨a, ha, hid⟩ := hv3
    simp only [id] at hid
    exact hid ▸ ha

/-- Claim C8: every entry of the example map comes from a text-typed
column whose average value length is below 32 (a `NULL` average counting
as 0); it holds at most 5 distinct values, each non-empty, non-`NULL`,
and drawn from the first 1000 rows. -/
theorem claim_C8 (ti : TableInfo) (entry : String × List String)
    (hmem : entry ∈ get_example_columns ti) :
    ∃ cols c, ti = TableInfo.concrete cols ∧ c ∈ cols
      ∧ entry.1 = c.name ∧ c.isStr = true
      ∧ (sqlAvgLength c.values).getD 0 < 32
      ∧ entry.2 = sampleExamples c.values
      ∧ entry.2.length ≤ 5
      ∧ entry.2.Nodup
      ∧ ∀ v ∈ entry.2, ¬ v = "" ∧ some v ∈ c.values.take 1000 := by
  cases ti with
  | virtualTable => simp [get_example_columns] at hmem
  | concrete cols =>
      simp only [get_example_columns, List.mem_filterMap] at hmem
      obtain ⟨c, hc, hfc⟩ := hmem
      by_cases h1 : c.isStr = true
      · by_cases h2 : (sqlAvgLength c.values).getD 0 < 32
        · simp only [h1, h2, if_true, Option.some.injEq] at hfc
          subst hfc
          exact ⟨cols, c, rfl, hc, rfl, h1, h2, rfl, sampleExamples_length_le c.values,
            sampleExamples_nodup c.values, fun v hv => sampleExamples_mem c.values v hv⟩
        · simp [h1, h2] at hfc
      · simp [h1] at hfc

/-- Witness for C8 at a concrete single-column table. -/
theorem claim_C8_witness :
    ∃ cols c,
      TableInfo.concrete [⟨"name", true, [some "a"]⟩] = TableInfo.concrete cols
        ∧ c ∈ cols
        ∧ ("name", ["a"]).1 = c.name ∧ c.isStr = true
        ∧ (sqlAvgLength c.values).getD 0 < 32
        ∧ ("name", ["a"]).2 = sampleExamples c.values
        ∧ ("name", ["a"]).2.length ≤ 5
        ∧ ("name", ["a"]).2.Nodup
        ∧ ∀ v ∈ ("name", ["a"]).2, ¬ v = "" ∧ some v ∈ c.values.take 1000 := by
  have h1 : (sqlAvgLength [some "a"]).getD 0 < 32 := by
    rw [ sqlAvgLength_getD_lt]
    decide
  refine claim_C8 (TableInfo.concrete [⟨"name", true, [some "a"]⟩]) ("name", ["a"]) ?_
  simp [get_example_columns, h1]
  decide

example :
    (_shared_ask envGood dbTiny (str "q") false).2
      = Outcome.ok (some (str "select 1")) [[("x", "1")]] := by decide

example :
    (_shared_ask envAllFail dbTiny (str "q") false).2
      = Outcome.attemptsExhausted (str "Failed after 3 attempts") := by decide
